import Mathlib

/-!
Verification of `kb_cli_gemini.py` (MindsDB knowledge-base CLI with Google
Gemini engine).

The Python program is a thin SQL-templating client: every operation builds a
statement string and hands it to a remote client, classifying errors by a
case-insensitive substring test for "already exists".  The shallow embedding
below models:

* strings as Lean `String` (Python `str.lower` as an ASCII character map,
  Python `in` on strings as a character-list substring test);
* the remote client as an explicit parameter: a function from the issued
  statement (or a structured call description) to an `Except String` outcome,
  where `Except.error e` stands for a raised `MindsDBException` whose `str()`
  is `e`;
* log output as an explicit `List LogEntry` component of each result;
* Python floats (the relevance threshold) by their rendered decimal string,
  since only their textual interpolation into SQL matters here;
* `pandas.DataFrame` by the only observations the program makes of it:
  its column-name list and its row count (`Table`).
-/

namespace KBCli

/-- The single-quote character, written via its code point. -/
def squote : Char := Char.ofNat 39

/-- The single-quote character as a one-character string. -/
def squoteStr : String := String.mk [squote]

/-- A log line, tagged with its level, mirroring `logging.info` /
`logging.warning` / `logging.error` calls in the source. -/
inductive LogEntry where
  | info (msg : String)
  | warning (msg : String)
  | error (msg : String)
deriving DecidableEq, Repr

/-- Model of Python `str.lower()` for the ASCII messages the program
compares: lower-case each character. -/
def pyLower (s : String) : String := String.mk (s.data.map Char.toLower)

/-- `startsWithChars pat l` is true when `pat` is an initial segment of `l`. -/
def startsWithChars : List Char → List Char → Bool
  | [], _ => true
  | _ :: _, [] => false
  | a :: as, b :: bs => a == b && startsWithChars as bs

/-- `hasInfixChars pat l` is true when `pat` occurs contiguously inside `l`. -/
def hasInfixChars (pat : List Char) : List Char → Bool
  | [] => startsWithChars pat []
  | b :: bs => startsWithChars pat (b :: bs) || hasInfixChars pat bs

/-- Model of Python `pat in s` for strings: contiguous substring test. -/
def containsSubstr (s pat : String) : Bool := hasInfixChars pat.data s.data

/-- The error classification used by every creation operation in the source:
`"already exists" in str(e).lower()`. -/
def containsAlreadyExists (msg : String) : Bool :=
  containsSubstr (pyLower msg) "already exists"

/-- The observations `main` makes of a loaded `pandas.DataFrame`: the list of
column names (`df.columns`) and the row count (`len(df)`). -/
structure Table where
  columns : List String
  nrows : Nat
deriving DecidableEq, Repr

/-! ## Column partition computed by `main` (source lines 221-223)

```python
id_column = "id" if "id" in df.columns else df.columns[0]
content_columns = ["content"] if "content" in df.columns else
    [col for col in df.columns if col != id_column]
metadata_columns = [col for col in df.columns if col not in content_columns + [id_column]]
```
-/

/-- `"id" if "id" in df.columns else df.columns[0]`; `headD ""` stands for
`df.columns[0]` (the program only reaches this with a non-empty header). -/
def id_column (cols : List String) : String :=
  if "id" ∈ cols then "id" else cols.headD ""

/-- `["content"] if "content" in df.columns else
[col for col in df.columns if col != id_column]`. -/
def content_columns (cols : List String) : List String :=
  if "content" ∈ cols then ["content"]
  else cols.filter (fun c => decide (c ≠ id_column cols))

/-- `[col for col in df.columns if col not in content_columns + [id_column]]`. -/
def metadata_columns (cols : List String) : List String :=
  cols.filter (fun c => decide (c ∉ content_columns cols ++ [id_column cols]))

/-! ## Remote rows and Python helpers -/

/-- A result row as observed by the program (printed, or returned verbatim). -/
abbrev Row := List String

/-- Model of Python `str(list_of_strings)` for names without quote or escape
characters in them (the only case the program produces): bracketed,
comma-separated, each element single-quoted. -/
def pyStrList (l : List String) : String :=
  "[" ++ String.intercalate ", " (l.map (fun s => squoteStr ++ s ++ squoteStr)) ++ "]"

/-! ## `MindsDBGeminiKBCLI.create_gemini_engine` (source lines 19-34) -/

/-- The statement text built by `create_gemini_engine` (the `create_engine_sql`
f-string, with its exact newlines and indentation). -/
def create_engine_sql (engine_name gemini_api_key : String) : String :=
  "\n        CREATE ML_ENGINE " ++ engine_name
    ++ "\n        FROM google_gemini\n        USING api_key = \x27" ++ gemini_api_key
    ++ "\x27;\n        "

/-- `create_gemini_engine`: issues the statement through the remote client
(`remote`, mapping the issued statement to its outcome; `Except.error e`
stands for a raised `MindsDBException` printing as `e`).  An error whose
lower-cased text contains `"already exists"` is downgraded to a warning;
any other error is logged and re-raised. -/
def create_gemini_engine (engine_name gemini_api_key : String)
    (remote : String → Except String Unit) : List LogEntry × Except String Unit :=
  let lead := LogEntry.info ("Creating Gemini ML engine \x27" ++ engine_name ++ "\x27...")
  match remote (create_engine_sql engine_name gemini_api_key) with
  | Except.ok _ =>
      ([lead, LogEntry.info ("Gemini ML engine \x27" ++ engine_name
          ++ "\x27 created successfully.")], Except.ok ())
  | Except.error e =>
      if containsAlreadyExists e then
        ([lead, LogEntry.warning ("Gemini ML engine \x27" ++ engine_name
            ++ "\x27 already exists.")], Except.ok ())
      else
        ([lead, LogEntry.error ("Failed to create Gemini ML engine: " ++ e)],
          Except.error e)

/-! ## `MindsDBGeminiKBCLI.create_knowledge_base` (source lines 36-72) -/

/-- `metadata_columns or []` (Python `or`: `None` and the empty list both
fall back to the default). -/
def resolve_metadata_columns (metadata_columns : Option (List String)) : List String :=
  match metadata_columns with
  | none => []
  | some l => if l = [] then [] else l

/-- `content_columns or ["content"]` (Python `or`: `None` and the empty list
both fall back to the default). -/
def resolve_content_columns (content_columns : Option (List String)) : List String :=
  match content_columns with
  | none => ["content"]
  | some l => if l = [] then ["content"] else l

/-- The default value of the `id_column` parameter of
`create_knowledge_base` in the source (`id_column="id"`). -/
def create_knowledge_base_default_id_column : String := "id"

/-- `f"{self.project}.{kb_name}" if self.project else kb_name` as written in
`create_knowledge_base` (line 42); an empty project string is falsy in
Python, so it leaves the name unqualified. -/
def create_knowledge_base_full_name (project : Option String) (kb_name : String) : String :=
  match project with
  | some p => if p = "" then kb_name else p ++ "." ++ kb_name
  | none => kb_name

/-- The `create_kb_sql` f-string (lines 46-62): the `\x7b\x7b` / `\x7d\x7d`
escapes of the source produce literal braces, and the two column lists are
interpolated with Python `str()`. -/
def create_kb_sql (full_kb_name engine_name : String)
    (metadata_columns content_columns : List String) (id_column : String) : String :=
  "\n        CREATE KNOWLEDGE_BASE " ++ full_kb_name
    ++ "\n        USING\n        embedding_model = \x7b\n            \"provider\": \"google_gemini\",\n            \"engine\": \""
    ++ engine_name
    ++ "\",\n            \"model_name\": \"gemini-2-5-flash\"\n        \x7d,\n        reranking_model = \x7b\n            \"provider\": \"google_gemini\",\n            \"engine\": \""
    ++ engine_name
    ++ "\",\n            \"model_name\": \"gemini-2-5-flash\"\n        \x7d,\n        metadata_columns = "
    ++ pyStrList metadata_columns
    ++ ",\n        content_columns = " ++ pyStrList content_columns
    ++ ",\n        id_column = \x27" ++ id_column ++ "\x27;\n        "

/-- `create_knowledge_base`: resolves the optional column arguments, builds
and issues the creation statement, downgrading an "already exists" error to
a warning and re-raising anything else. -/
def create_knowledge_base (project : Option String) (kb_name engine_name : String)
    (metadata_columns content_columns : Option (List String)) (id_column : String)
    (remote : String → Except String Unit) : List LogEntry × Except String Unit :=
  let mcols := resolve_metadata_columns metadata_columns
  let ccols := resolve_content_columns content_columns
  let full := create_knowledge_base_full_name project kb_name
  let lead := LogEntry.info ("Creating knowledge base \x27" ++ full
      ++ "\x27 with Gemini engine \x27" ++ engine_name ++ "\x27...")
  match remote (create_kb_sql full engine_name mcols ccols id_column) with
  | Except.ok _ =>
      ([lead, LogEntry.info ("Knowledge base \x27" ++ full
          ++ "\x27 created successfully.")], Except.ok ())
  | Except.error e =>
      if containsAlreadyExists e then
        ([lead, LogEntry.warning ("Knowledge base \x27" ++ full
            ++ "\x27 already exists.")], Except.ok ())
      else
        ([lead, LogEntry.error ("Failed to create knowledge base: " ++ e)],
          Except.error e)

/-! ## `MindsDBGeminiKBCLI.insert_data_with_job` (source lines 74-89)

The job handle obtained from `kb.insert(df, async_mode=True)` and its
`wait()` are collapsed into a single remote outcome; the success-path log
lines that print the remote job id and status are omitted because their
content is determined by the remote platform, not by this program. -/

/-- `f"{self.project}.{kb_name}" if self.project else kb_name` as written in
`insert_data_with_job` (line 78). -/
def insert_data_with_job_full_name (project : Option String) (kb_name : String) : String :=
  match project with
  | some p => if p = "" then kb_name else p ++ "." ++ kb_name
  | none => kb_name

/-- `insert_data_with_job`: looks up the knowledge base by its qualified
name, inserts asynchronously and waits; any error is logged and re-raised. -/
def insert_data_with_job (project : Option String) (kb_name : String) (df : Table)
    (remote : Except String Unit) : List LogEntry × Except String Unit :=
  let full := insert_data_with_job_full_name project kb_name
  let lead := LogEntry.info ("Starting async data ingestion job for knowledge base \x27"
      ++ full ++ "\x27 with " ++ toString df.nrows ++ " rows...")
  match remote with
  | Except.ok _ => ([lead], Except.ok ())
  | Except.error e =>
      ([lead, LogEntry.error ("Failed to insert data with job: " ++ e)], Except.error e)

/-! ## `MindsDBGeminiKBCLI.create_index_with_job` (source lines 91-105) -/

/-- `f"{self.project}.{kb_name}" if self.project else kb_name` as written in
`create_index_with_job` (line 95). -/
def create_index_with_job_full_name (project : Option String) (kb_name : String) : String :=
  match project with
  | some p => if p = "" then kb_name else p ++ "." ++ kb_name
  | none => kb_name

/-- The statement passed to `query_async` (line 99). -/
def create_index_sql (full_kb_name : String) : String :=
  "CREATE INDEX ON KNOWLEDGE_BASE " ++ full_kb_name

/-- `create_index_with_job`: submits the asynchronous index build and waits;
any error is logged and re-raised (job id/status logs omitted as above). -/
def create_index_with_job (project : Option String) (kb_name : String)
    (remote : String → Except String Unit) : List LogEntry × Except String Unit :=
  let full := create_index_with_job_full_name project kb_name
  let lead := LogEntry.info ("Starting async index creation job for knowledge base \x27"
      ++ full ++ "\x27...")
  match remote (create_index_sql full) with
  | Except.ok _ => ([lead], Except.ok ())
  | Except.error e =>
      ([lead, LogEntry.error ("Failed to create index with job: " ++ e)], Except.error e)

/-! ## `MindsDBGeminiKBCLI.semantic_search` (source lines 107-133) -/

/-- `f"{self.project}.{kb_name}" if self.project else kb_name` as written in
`semantic_search` (line 108). -/
def semantic_search_full_name (project : Option String) (kb_name : String) : String :=
  match project with
  | some p => if p = "" then kb_name else p ++ "." ++ kb_name
  | none => kb_name

/-- One character of `query.replace("\x27", "\x27\x27")`: a single quote
becomes two single quotes, everything else is kept. -/
def escapeQuoteChar (c : Char) : List Char :=
  if c = squote then [squote, squote] else [c]

/-- Model of `query.replace("\x27", "\x27\x27")` (line 111): for a
one-character pattern, Python `str.replace` rewrites each occurrence of that
character independently. -/
def replaceQuotes (s : String) : String := String.mk (s.data.flatMap escapeQuoteChar)

/-- Literal template text of the `semantic_search` statement before the
interpolated knowledge-base name (lines 114-118). -/
def semantic_search_sql_lit1 : String :=
  "\n        SELECT id, content,\n          LAST_VALUE(updated_at) OVER (PARTITION BY id ORDER BY updated_at ROWS BETWEEN UNBOUNDED PRECEDING AND UNBOUNDED FOLLOWING) AS latest_update,\n          relevance_score\n        FROM "

/-- Literal template text between the name and the escaped query, ending
with the opening quote of the `LIKE` pattern (lines 118-119). -/
def semantic_search_sql_lit2 : String := "\n        WHERE content LIKE \x27"

/-- Literal template text after the escaped query, starting with the
closing quote of the `LIKE` pattern (lines 119-120). -/
def semantic_search_sql_lit3 : String := "\x27\n          AND relevance_score >= "

/-- Literal template text between the threshold and the limit (lines
121-122). -/
def semantic_search_sql_lit4 : String :=
  "\n        ORDER BY relevance_score DESC\n        LIMIT "

/-- Literal template text after the limit (lines 122-123). -/
def semantic_search_sql_lit5 : String := ";\n        "

/-- The part of the `semantic_search` statement before the escaped query
(lines 114-119 up to `LIKE \x27`). -/
def semantic_search_sql_head (full_kb_name : String) : String :=
  semantic_search_sql_lit1 ++ full_kb_name ++ semantic_search_sql_lit2

/-- The part of the `semantic_search` statement after the escaped query
(lines 119-123); the float threshold is modelled by its rendered text. -/
def semantic_search_sql_tail (relevance_threshold : String) (limit : Nat) : String :=
  semantic_search_sql_lit3 ++ relevance_threshold ++ semantic_search_sql_lit4
    ++ toString limit ++ semantic_search_sql_lit5

/-- The full `semantic_search` statement (the `sql` f-string, lines 114-123):
the query is interpolated after quote escaping. -/
def semantic_search_sql (project : Option String) (kb_name query : String)
    (limit : Nat) (relevance_threshold : String) : String :=
  semantic_search_sql_head (semantic_search_full_name project kb_name)
    ++ replaceQuotes query
    ++ semantic_search_sql_tail relevance_threshold limit

/-- `semantic_search`: issues the statement; an empty (falsy) result set is
returned as `[]` with an informational log, a non-empty one verbatim; an
error is logged and re-raised. -/
def semantic_search (project : Option String) (kb_name query : String)
    (limit : Nat) (relevance_threshold : String)
    (remote : String → Except String (List Row)) :
    List LogEntry × Except String (List Row) :=
  let full := semantic_search_full_name project kb_name
  let lead := LogEntry.info ("Performing semantic search on \x27" ++ full
      ++ "\x27 for query: " ++ query)
  match remote (semantic_search_sql project kb_name query limit relevance_threshold) with
  | Except.ok result =>
      if result = [] then ([lead, LogEntry.info "No results found."], Except.ok [])
      else ([lead], Except.ok result)
  | Except.error e =>
      ([lead, LogEntry.error ("Search query failed: " ++ e)], Except.error e)

/-! ## `MindsDBGeminiKBCLI.create_ai_table` (source lines 135-160) -/

/-- `f"{self.project}.{ai_table_name}" if self.project else ai_table_name`
as written in `create_ai_table` (line 139). -/
def create_ai_table_full_name (project : Option String) (ai_table_name : String) : String :=
  match project with
  | some p => if p = "" then ai_table_name else p ++ "." ++ ai_table_name
  | none => ai_table_name

/-- The `create_ai_table_sql` f-string (lines 144-150), with
`", ".join(input_columns)` for the projected columns. -/
def create_ai_table_sql (full_ai_table_name source_table task_type : String)
    (input_columns : List String) (output_column : String) : String :=
  "\n        CREATE AI TABLE " ++ full_ai_table_name
    ++ "\n        AS SELECT " ++ String.intercalate ", " input_columns
    ++ "\n        FROM " ++ source_table
    ++ "\n        PREDICT " ++ output_column
    ++ "\n        USING task = \x27" ++ task_type ++ "\x27;\n        "

/-- `create_ai_table`: issues the creation statement with the same
"already exists" downgrade as the other creation operations. -/
def create_ai_table (project : Option String)
    (ai_table_name source_table task_type : String)
    (input_columns : List String) (output_column : String)
    (remote : String → Except String Unit) : List LogEntry × Except String Unit :=
  let full := create_ai_table_full_name project ai_table_name
  let lead := LogEntry.info ("Creating AI Table \x27" ++ full
      ++ "\x27 for task \x27" ++ task_type ++ "\x27...")
  match remote (create_ai_table_sql full source_table task_type input_columns output_column) with
  | Except.ok _ =>
      ([lead, LogEntry.info ("AI Table \x27" ++ full
          ++ "\x27 created successfully.")], Except.ok ())
  | Except.error e =>
      if containsAlreadyExists e then
        ([lead, LogEntry.warning ("AI Table \x27" ++ full
            ++ "\x27 already exists.")], Except.ok ())
      else
        ([lead, LogEntry.error ("Failed to create AI Table: " ++ e)], Except.error e)

/-! ## `MindsDBGeminiKBCLI.query_ai_table` (source lines 162-177) -/

/-- `f"{self.project}.{ai_table_name}" if self.project else ai_table_name`
as written in `query_ai_table` (line 163). -/
def query_ai_table_full_name (project : Option String) (ai_table_name : String) : String :=
  match project with
  | some p => if p = "" then ai_table_name else p ++ "." ++ ai_table_name
  | none => ai_table_name

/-- `f"WHERE {query_filter}" if query_filter else ""` (line 166); an empty
filter string is falsy in Python. -/
def query_ai_table_where_clause (query_filter : Option String) : String :=
  match query_filter with
  | some f => if f = "" then "" else "WHERE " ++ f
  | none => ""

/-- The `query_ai_table` statement (line 167). -/
def query_ai_table_sql (full_ai_table_name : String) (query_filter : Option String)
    (limit : Nat) : String :=
  "SELECT * FROM " ++ full_ai_table_name ++ " "
    ++ query_ai_table_where_clause query_filter ++ " LIMIT " ++ toString limit ++ ";"

/-- `query_ai_table`: issues the select; an empty (falsy) result set is
returned as `[]` with an informational log, a non-empty one verbatim; an
error is logged and re-raised. -/
def query_ai_table (project : Option String) (ai_table_name : String)
    (query_filter : Option String) (limit : Nat)
    (remote : String → Except String (List Row)) :
    List LogEntry × Except String (List Row) :=
  let full := query_ai_table_full_name project ai_table_name
  let lead := LogEntry.info ("Querying AI Table \x27" ++ full ++ "\x27...")
  match remote (query_ai_table_sql full query_filter limit) with
  | Except.ok result =>
      if result = [] then ([lead, LogEntry.info "No AI Table results found."], Except.ok [])
      else ([lead], Except.ok result)
  | Except.error e =>
      ([lead, LogEntry.error ("Failed to query AI Table: " ++ e)], Except.error e)

/-! ## `load_csv` (source lines 179-186) -/

/-- `load_csv`: `pd.read_csv` is the external collaborator `readCsv`,
mapping the file name to either a loaded table or an error (any raised
exception, printed as a string).  On success the row count is logged and the
table returned; on failure the error is logged and re-raised. -/
def load_csv (input_file : String) (readCsv : String → Except String Table) :
    List LogEntry × Except String Table :=
  match readCsv input_file with
  | Except.ok df =>
      ([LogEntry.info ("Loaded " ++ toString df.nrows ++ " rows from \x27"
          ++ input_file ++ "\x27.")], Except.ok df)
  | Except.error e =>
      ([LogEntry.error ("Failed to load CSV file: " ++ e)], Except.error e)

/-! ## `main` (source lines 188-272)

`main` is modelled as a function from the parsed arguments and a remote
environment to the trace of remote calls it issues, the log it writes, and
its outcome (`Except.error e` = an exception escapes `main`).  The remote
environment answers each structured call with a row list or an error; the
constructor's `projects.get` (line 15) issues no statement and is not
traced. -/

/-- The parsed command-line arguments (lines 191-206).  `--limit` defaults
to 10 and `--relevance_threshold` to 0.5; the threshold float is modelled by
its rendered text. -/
structure Args where
  api_key : String
  kb_name : Option String
  project : Option String
  gemini_api_key : Option String
  input_file : Option String
  query : Option String
  limit : Nat
  relevance_threshold : String
  create_ai_table : Bool
  ai_table_name : Option String
  source_table : Option String
  task_type : Option String
  input_columns : Option (List String)
  output_column : Option String
  query_ai_table : Bool
  ai_query_filter : Option String
deriving Repr

/-- Python truthiness of an optional string (`None` and `""` are falsy). -/
def truthyStr : Option String → Bool
  | none => false
  | some s => s != ""

/-- Python truthiness of an optional list (`None` and `[]` are falsy). -/
def truthyList : Option (List String) → Bool
  | none => false
  | some l => decide (l ≠ [])

/-- A structured description of one remote call issued by `main`. -/
inductive Call where
  | createEngine (engine_name gemini_api_key : String)
  | createKB (full_kb_name engine_name : String)
      (metadata_columns content_columns : List String) (id_column : String)
  | insertJob (full_kb_name : String) (nrows : Nat)
  | indexJob (full_kb_name : String)
  | search (full_kb_name query : String)
  | createAITable (full_ai_table_name source_table task_type : String)
      (input_columns : List String) (output_column : String)
  | queryAITable (full_ai_table_name : String) (query_filter : Option String)
deriving DecidableEq, Repr

/-- The remote environment: an answer for every structured call, and the
outcome of `pd.read_csv` for every file name. -/
structure Env where
  respond : Call → Except String (List Row)
  readCsv : String → Except String Table

/-- The unit-valued view of a response (creation and job calls ignore the
returned rows). -/
def Env.respondUnit (env : Env) (c : Call) : Except String Unit :=
  (env.respond c).map (fun _ => ())

/-- The running state of `main`: calls issued so far, log written so far,
and the outcome. -/
abbrev Step := List Call × List LogEntry × Except String Unit

/-- Sequencing of `main`'s phases: the second phase runs only when the first
did not raise; traces and logs accumulate. -/
def seqStep (a : Step) (b : Unit → Step) : Step :=
  match a with
  | (cs, ls, Except.ok _) =>
      let r := b ()
      (cs ++ r.1, ls ++ r.2.1, r.2.2)
  | (cs, ls, Except.error e) => (cs, ls, Except.error e)

/-- A phase that issues a single remote call and finishes with the given
method result. -/
def callStep (c : Call) (r : List LogEntry × Except String Unit) : Step :=
  ([c], r.1, r.2)

/-- A skipped phase. -/
def okStep : Step := ([], [], Except.ok ())

/-- `engine_name = "google_gemini_engine"` (line 211): a local constant of
`main`, not taken from any command-line argument. -/
def main_engine_name : String := "google_gemini_engine"

/-- Lines 214-215: `if args.gemini_api_key:` create the Gemini engine. -/
def mainEngineStep (args : Args) (env : Env) : Step :=
  match args.gemini_api_key with
  | some key =>
      if key = "" then okStep
      else
        callStep (Call.createEngine main_engine_name key)
          (create_gemini_engine main_engine_name key
            (fun _ => env.respondUnit (Call.createEngine main_engine_name key)))
  | none => okStep

/-- Lines 218-234: `if args.kb_name and args.input_file:` load the CSV,
partition its columns, create the knowledge base, insert and index via
jobs. -/
def mainKbStep (args : Args) (env : Env) : Step :=
  match args.kb_name, args.input_file with
  | some kbn, some infile =>
    if kbn = "" ∨ infile = "" then okStep
    else
      let lc := load_csv infile env.readCsv
      match lc.2 with
      | Except.error e => ([], lc.1, Except.error e)
      | Except.ok df =>
        let idc := id_column df.columns
        let ccols := content_columns df.columns
        let mcols := metadata_columns df.columns
        let kbFull := create_knowledge_base_full_name args.project kbn
        let insFull := insert_data_with_job_full_name args.project kbn
        let idxFull := create_index_with_job_full_name args.project kbn
        seqStep ([], lc.1, Except.ok ()) fun _ =>
        seqStep (callStep (Call.createKB kbFull main_engine_name mcols ccols idc)
            (create_knowledge_base args.project kbn main_engine_name
              (some mcols) (some ccols) idc
              (fun _ => env.respondUnit
                (Call.createKB kbFull main_engine_name mcols ccols idc)))) fun _ =>
        seqStep (callStep (Call.insertJob insFull df.nrows)
            (insert_data_with_job args.project kbn df
              (env.respondUnit (Call.insertJob insFull df.nrows)))) fun _ =>
        callStep (Call.indexJob idxFull)
          (create_index_with_job args.project kbn
            (fun _ => env.respondUnit (Call.indexJob idxFull)))
  | _, _ => okStep

/-- Lines 237-247: `if args.kb_name and args.query:` run the semantic
search (printing of the returned rows has no remote effect). -/
def mainSearchStep (args : Args) (env : Env) : Step :=
  match args.kb_name, args.query with
  | some kbn, some q =>
    if kbn = "" ∨ q = "" then okStep
    else
      let c := Call.search (semantic_search_full_name args.project kbn) q
      let r := semantic_search args.project kbn q args.limit args.relevance_threshold
        (fun _ => env.respond c)
      ([c], r.1, r.2.map (fun _ => ()))
  | _, _ => okStep

/-- The condition `all([args.ai_table_name, args.source_table,
args.task_type, args.input_columns, args.output_column])` of line 251
(Python truthiness: `None`, `""` and `[]` all fail it). -/
def aiRequiredFieldsPresent (args : Args) : Bool :=
  truthyStr args.ai_table_name && truthyStr args.source_table &&
  truthyStr args.task_type && truthyList args.input_columns &&
  truthyStr args.output_column

/-- The error logged on line 252 when a required AI-table field is missing. -/
def ai_table_missing_log : LogEntry :=
  LogEntry.error "AI Table creation requires --ai_table_name, --source_table, --task_type, --input_columns, and --output_column."

/-- Lines 263-272: `if args.query_ai_table and args.ai_table_name:` query
the AI table. -/
def mainQueryAiStep (args : Args) (env : Env) : Step :=
  match args.ai_table_name with
  | some n =>
    if args.query_ai_table && (n != "") then
      let c := Call.queryAITable (query_ai_table_full_name args.project n) args.ai_query_filter
      let r := query_ai_table args.project n args.ai_query_filter args.limit
        (fun _ => env.respond c)
      ([c], r.1, r.2.map (fun _ => ()))
    else okStep
  | none => okStep

/-- Lines 250-272: the AI-table creation branch followed by the AI-table
query branch.  When the creation flag is set and a required field is
missing, `main` logs an error and returns immediately (line 253), skipping
the query branch as well; the inner wildcard arm is unreachable because
`aiRequiredFieldsPresent` forces all five fields to be `some`. -/
def mainAiStep (args : Args) (env : Env) : Step :=
  if args.create_ai_table then
    if aiRequiredFieldsPresent args then
      match args.ai_table_name, args.source_table, args.task_type,
          args.input_columns, args.output_column with
      | some n, some s, some t, some ic, some oc =>
        seqStep (callStep
            (Call.createAITable (create_ai_table_full_name args.project n) s t ic oc)
            (create_ai_table args.project n s t ic oc
              (fun _ => env.respondUnit
                (Call.createAITable (create_ai_table_full_name args.project n) s t ic oc))))
          fun _ => mainQueryAiStep args env
      | _, _, _, _, _ => ([], [ai_table_missing_log], Except.ok ())
    else ([], [ai_table_missing_log], Except.ok ())
  else mainQueryAiStep args env

/-- `main`: the four phases in source order. -/
def runMain (args : Args) (env : Env) : Step :=
  seqStep (mainEngineStep args env) fun _ =>
  seqStep (mainKbStep args env) fun _ =>
  seqStep (mainSearchStep args env) fun _ =>
  mainAiStep args env

/-- A call is an AI-table creation call. -/
def isCreateAITableCall : Call → Bool
  | Call.createAITable .. => true
  | _ => false

/-- The engine name carried by a call, where it carries one, is `main`'s
fixed constant. -/
def usesMainEngineName : Call → Bool
  | Call.createEngine en _ => en == main_engine_name
  | Call.createKB _ en _ _ _ => en == main_engine_name
  | _ => true

/-- An environment in which every remote call succeeds (with an empty row
set) and every CSV read succeeds. -/
def envAllOk (env : Env) : Prop :=
  (∀ c, env.respond c = Except.ok []) ∧ (∀ f, ∃ df, env.readCsv f = Except.ok df)

/-- The qualification rule as the specification states it (amended: a
non-empty project qualifies, everything else leaves the name bare). -/
def qualified_name_rule (project : Option String) (name : String) : String :=
  match project with
  | some p => if p ≠ "" then p ++ "." ++ name else name
  | none => name

end KBCli

namespace KBCli

/-- C1, counterexample: on the column list `["content", "x"]` (no column named
`"id"`, first column named `"content"`) the identifier column is `"content"`
and `"content"` is also a content column, so the identifier and content sets
are not disjoint: the partition invariant claimed by C1 fails. -/
theorem C1_partition_counterexample :
    id_column ["content", "x"] = "content" ∧
    id_column ["content", "x"] ∈ content_columns ["content", "x"] := by
  decide

/-- C1, amended: for every non-empty column list the partition is
deterministic (it is a function of the column list) and covers all columns;
each of the three parts only mentions listed columns; the metadata part is
disjoint from both the identifier and the content part; and the identifier is
disjoint from the content part whenever a column named `"id"` is present or
the first column is not named `"content"` (in the remaining case the
identifier column is the first column `"content"`, which is also the sole
content column). -/
theorem C1_partition_amended (cols : List String) (h : cols ≠ []) :
    (∀ c ∈ cols, c = id_column cols ∨ c ∈ content_columns cols ∨ c ∈ metadata_columns cols) ∧
    id_column cols ∈ cols ∧
    (∀ c ∈ content_columns cols, c ∈ cols) ∧
    (∀ c ∈ metadata_columns cols, c ∈ cols) ∧
    (∀ c ∈ metadata_columns cols, c ≠ id_column cols ∧ c ∉ content_columns cols) ∧
    (("id" ∈ cols ∨ cols.headD "" ≠ "content") →
      ∀ c ∈ content_columns cols, c ≠ id_column cols) := by
  refine ⟨?_, ?_, ?_, ?_, ?_, ?_⟩
  · intro c hc
    by_cases hm : c ∈ content_columns cols ++ [id_column cols]
    · rcases List.mem_append.mp hm with hcon | hid
      · exact Or.inr (Or.inl hcon)
      · exact Or.inl (List.mem_singleton.mp hid)
    · refine Or.inr (Or.inr ?_)
      exact List.mem_filter.mpr ⟨hc, decide_eq_true hm⟩
  · unfold id_column
    split
    · assumption
    · cases cols with
      | nil => exact absurd rfl h
      | cons a l => exact List.mem_cons_self a l
  · intro c hc
    unfold content_columns at hc
    split at hc
    · rwa [List.mem_singleton.mp hc]
    · exact (List.mem_filter.mp hc).1
  · intro c hc
    exact (List.mem_filter.mp hc).1
  · intro c hc
    have hp := of_decide_eq_true (List.mem_filter.mp hc).2
    constructor
    · intro he
      exact hp (List.mem_append.mpr (Or.inr (he ▸ List.mem_singleton_self _)))
    · intro he
      exact hp (List.mem_append.mpr (Or.inl he))
  · intro hcase c hc
    unfold content_columns at hc
    split at hc
    · rename_i hcontent
      have hceq : c = "content" := List.mem_singleton.mp hc
      unfold id_column
      split
      · rename_i hid
        subst hceq
        decide
      · rename_i hid
        rcases hcase with h1 | h2
        · exact absurd h1 hid
        · subst hceq
          exact fun he => h2 he.symm
    · exact of_decide_eq_true (List.mem_filter.mp hc).2

/-- C1 amended, witness at the concrete column list `["id", "content", "a"]`. -/
theorem C1_partition_amended_witness :
    (["id", "content", "a"] : List String) ≠ [] ∧
    ((∀ c ∈ (["id", "content", "a"] : List String),
        c = id_column ["id", "content", "a"] ∨
        c ∈ content_columns ["id", "content", "a"] ∨
        c ∈ metadata_columns ["id", "content", "a"]) ∧
      id_column ["id", "content", "a"] ∈ (["id", "content", "a"] : List String) ∧
      (∀ c ∈ content_columns ["id", "content", "a"],
        c ∈ (["id", "content", "a"] : List String)) ∧
      (∀ c ∈ metadata_columns ["id", "content", "a"],
        c ∈ (["id", "content", "a"] : List String)) ∧
      (∀ c ∈ metadata_columns ["id", "content", "a"],
        c ≠ id_column ["id", "content", "a"] ∧
        c ∉ content_columns ["id", "content", "a"]) ∧
      (("id" ∈ (["id", "content", "a"] : List String) ∨
          (["id", "content", "a"] : List String).headD "" ≠ "content") →
        ∀ c ∈ content_columns ["id", "content", "a"],
          c ≠ id_column ["id", "content", "a"])) :=
  ⟨by decide, C1_partition_amended ["id", "content", "a"] (by decide)⟩

/-- C2: for each of the three creation operations, a remote error whose
text contains "already exists" in any letter case is not re-raised: the
operation returns normally (`Except.ok`) and logs a warning. -/
theorem C2_already_exists_warns (e : String) (he : containsAlreadyExists e = true) :
    (∀ engine_name gemini_api_key (remote : String → Except String Unit),
      remote (create_engine_sql engine_name gemini_api_key) = Except.error e →
      (create_gemini_engine engine_name gemini_api_key remote).2 = Except.ok () ∧
      LogEntry.warning ("Gemini ML engine \x27" ++ engine_name ++ "\x27 already exists.")
        ∈ (create_gemini_engine engine_name gemini_api_key remote).1) ∧
    (∀ project kb_name engine_name metadata_columns content_columns id_col
        (remote : String → Except String Unit),
      remote (create_kb_sql (create_knowledge_base_full_name project kb_name) engine_name
          (resolve_metadata_columns metadata_columns)
          (resolve_content_columns content_columns) id_col) = Except.error e →
      (create_knowledge_base project kb_name engine_name metadata_columns content_columns
          id_col remote).2 = Except.ok () ∧
      LogEntry.warning ("Knowledge base \x27" ++ create_knowledge_base_full_name project kb_name
          ++ "\x27 already exists.")
        ∈ (create_knowledge_base project kb_name engine_name metadata_columns content_columns
            id_col remote).1) ∧
    (∀ project ai_table_name source_table task_type input_columns output_column
        (remote : String → Except String Unit),
      remote (create_ai_table_sql (create_ai_table_full_name project ai_table_name)
          source_table task_type input_columns output_column) = Except.error e →
      (create_ai_table project ai_table_name source_table task_type input_columns
          output_column remote).2 = Except.ok () ∧
      LogEntry.warning ("AI Table \x27" ++ create_ai_table_full_name project ai_table_name
          ++ "\x27 already exists.")
        ∈ (create_ai_table project ai_table_name source_table task_type input_columns
            output_column remote).1) := by
  refine ⟨?_, ?_, ?_⟩
  · intro engine_name gemini_api_key remote h
    simp [create_gemini_engine, h, he]
  · intro project kb_name engine_name metadata_columns content_columns id_col remote h
    simp [create_knowledge_base, h, he]
  · intro project ai_table_name source_table task_type input_columns output_column remote h
    simp [create_ai_table, h, he]

/-- C2, witness: a concrete mixed-case "ALREADY exists" error at each of the
three creation operations. -/
theorem C2_already_exists_warns_witness :
    containsAlreadyExists "Duplicate: ALREADY exists" = true ∧
    ((create_gemini_engine "google_gemini_engine" "k"
        (fun _ => Except.error "Duplicate: ALREADY exists")).2 = Except.ok () ∧
      LogEntry.warning ("Gemini ML engine \x27" ++ "google_gemini_engine"
          ++ "\x27 already exists.")
        ∈ (create_gemini_engine "google_gemini_engine" "k"
            (fun _ => Except.error "Duplicate: ALREADY exists")).1) ∧
    ((create_knowledge_base (some "proj") "kb" "google_gemini_engine" none none "id"
        (fun _ => Except.error "Duplicate: ALREADY exists")).2 = Except.ok () ∧
      LogEntry.warning ("Knowledge base \x27"
          ++ create_knowledge_base_full_name (some "proj") "kb" ++ "\x27 already exists.")
        ∈ (create_knowledge_base (some "proj") "kb" "google_gemini_engine" none none "id"
            (fun _ => Except.error "Duplicate: ALREADY exists")).1) ∧
    ((create_ai_table none "t" "src" "summarization" ["a"] "out"
        (fun _ => Except.error "Duplicate: ALREADY exists")).2 = Except.ok () ∧
      LogEntry.warning ("AI Table \x27" ++ create_ai_table_full_name none "t"
          ++ "\x27 already exists.")
        ∈ (create_ai_table none "t" "src" "summarization" ["a"] "out"
            (fun _ => Except.error "Duplicate: ALREADY exists")).1) :=
  ⟨by decide,
    (C2_already_exists_warns "Duplicate: ALREADY exists" (by decide)).1
      "google_gemini_engine" "k" _ rfl,
    (C2_already_exists_warns "Duplicate: ALREADY exists" (by decide)).2.1
      (some "proj") "kb" "google_gemini_engine" none none "id" _ rfl,
    (C2_already_exists_warns "Duplicate: ALREADY exists" (by decide)).2.2
      none "t" "src" "summarization" ["a"] "out" _ rfl⟩

/-- C3: for each of the three creation operations, a remote error whose
text does not contain "already exists" (case-insensitively) is logged at
error level and re-raised unchanged. -/
theorem C3_other_error_reraised (e : String) (he : containsAlreadyExists e = false) :
    (∀ engine_name gemini_api_key (remote : String → Except String Unit),
      remote (create_engine_sql engine_name gemini_api_key) = Except.error e →
      (create_gemini_engine engine_name gemini_api_key remote).2 = Except.error e ∧
      LogEntry.error ("Failed to create Gemini ML engine: " ++ e)
        ∈ (create_gemini_engine engine_name gemini_api_key remote).1) ∧
    (∀ project kb_name engine_name metadata_columns content_columns id_col
        (remote : String → Except String Unit),
      remote (create_kb_sql (create_knowledge_base_full_name project kb_name) engine_name
          (resolve_metadata_columns metadata_columns)
          (resolve_content_columns content_columns) id_col) = Except.error e →
      (create_knowledge_base project kb_name engine_name metadata_columns content_columns
          id_col remote).2 = Except.error e ∧
      LogEntry.error ("Failed to create knowledge base: " ++ e)
        ∈ (create_knowledge_base project kb_name engine_name metadata_columns content_columns
            id_col remote).1) ∧
    (∀ project ai_table_name source_table task_type input_columns output_column
        (remote : String → Except String Unit),
      remote (create_ai_table_sql (create_ai_table_full_name project ai_table_name)
          source_table task_type input_columns output_column) = Except.error e →
      (create_ai_table project ai_table_name source_table task_type input_columns
          output_column remote).2 = Except.error e ∧
      LogEntry.error ("Failed to create AI Table: " ++ e)
        ∈ (create_ai_table project ai_table_name source_table task_type input_columns
            output_column remote).1) := by
  refine ⟨?_, ?_, ?_⟩
  · intro engine_name gemini_api_key remote h
    simp [create_gemini_engine, h, he]
  · intro project kb_name engine_name metadata_columns content_columns id_col remote h
    simp [create_knowledge_base, h, he]
  · intro project ai_table_name source_table task_type input_columns output_column remote h
    simp [create_ai_table, h, he]

/-- C3, witness: a concrete unrelated error at each creation operation is
returned unchanged. -/
theorem C3_other_error_reraised_witness :
    containsAlreadyExists "connection refused" = false ∧
    ((create_gemini_engine "google_gemini_engine" "k"
        (fun _ => Except.error "connection refused")).2
      = Except.error "connection refused" ∧
      LogEntry.error ("Failed to create Gemini ML engine: " ++ "connection refused")
        ∈ (create_gemini_engine "google_gemini_engine" "k"
            (fun _ => Except.error "connection refused")).1) ∧
    ((create_knowledge_base (some "proj") "kb" "google_gemini_engine" none none "id"
        (fun _ => Except.error "connection refused")).2
      = Except.error "connection refused" ∧
      LogEntry.error ("Failed to create knowledge base: " ++ "connection refused")
        ∈ (create_knowledge_base (some "proj") "kb" "google_gemini_engine" none none "id"
            (fun _ => Except.error "connection refused")).1) ∧
    ((create_ai_table none "t" "src" "classification" ["a"] "out"
        (fun _ => Except.error "connection refused")).2
      = Except.error "connection refused" ∧
      LogEntry.error ("Failed to create AI Table: " ++ "connection refused")
        ∈ (create_ai_table none "t" "src" "classification" ["a"] "out"
            (fun _ => Except.error "connection refused")).1) :=
  ⟨by decide,
    (C3_other_error_reraised "connection refused" (by decide)).1
      "google_gemini_engine" "k" _ rfl,
    (C3_other_error_reraised "connection refused" (by decide)).2.1
      (some "proj") "kb" "google_gemini_engine" none none "id" _ rfl,
    (C3_other_error_reraised "connection refused" (by decide)).2.2
      none "t" "src" "classification" ["a"] "out" _ rfl⟩

/-- Replacing quotes doubles the number of single-quote characters. -/
theorem replaceQuotes_quote_count (l : List Char) :
    (l.flatMap escapeQuoteChar).count squote = 2 * l.count squote := by
  induction l with
  | nil => rfl
  | cons a t ih =>
      rw [List.flatMap_cons, List.count_append, ih, List.count_cons]
      have hcount : (escapeQuoteChar a).count squote
          = 2 * (if a == squote then 1 else 0) := by
        by_cases h : a = squote
        · subst h; decide
        · have hb : (a == squote) = false := beq_eq_false_iff_ne.mpr h
          simp [escapeQuoteChar, h, hb, List.count_cons, List.count_nil]
      rw [hcount]
      ring

/-- Replacing quotes leaves every other character count unchanged. -/
theorem replaceQuotes_other_count (c : Char) (hc : c ≠ squote) (l : List Char) :
    (l.flatMap escapeQuoteChar).count c = l.count c := by
  induction l with
  | nil => rfl
  | cons a t ih =>
      rw [List.flatMap_cons, List.count_append, ih, List.count_cons]
      have hcount : (escapeQuoteChar a).count c = if a == c then 1 else 0 := by
        by_cases h : a = squote
        · subst h
          have hb : (squote == c) = false := beq_eq_false_iff_ne.mpr (Ne.symm hc)
          simp [escapeQuoteChar, hb, List.count_cons, List.count_nil]
        · simp [escapeQuoteChar, h, List.count_cons]
      rw [hcount]
      ring

/-- C4: the `semantic_search` statement is built around the query with every
single quote replaced by two single quotes: the statement is exactly the
fixed head, then `replaceQuotes query`, then the fixed tail; the escaped
query carries twice as many quote characters as the query and the same
number of every other character; and when the interpolated name, threshold
and limit carry no quotes the whole statement carries exactly the two
template quotes plus the doubled query quotes. -/
theorem C4_semantic_search_escapes_quotes
    (project : Option String) (kb_name query : String) (limit : Nat)
    (relevance_threshold : String)
    (hname : (semantic_search_full_name project kb_name).data.count squote = 0)
    (hthr : relevance_threshold.data.count squote = 0)
    (hlim : (toString limit).data.count squote = 0) :
    semantic_search_sql project kb_name query limit relevance_threshold
      = semantic_search_sql_head (semantic_search_full_name project kb_name)
        ++ replaceQuotes query
        ++ semantic_search_sql_tail relevance_threshold limit ∧
    (replaceQuotes query).data.count squote = 2 * query.data.count squote ∧
    (∀ c, c ≠ squote → (replaceQuotes query).data.count c = query.data.count c) ∧
    (semantic_search_sql project kb_name query limit relevance_threshold).data.count squote
      = 2 + 2 * query.data.count squote := by
  have l1 : semantic_search_sql_lit1.data.count squote = 0 := by decide
  have l2 : semantic_search_sql_lit2.data.count squote = 1 := by decide
  have l3 : semantic_search_sql_lit3.data.count squote = 1 := by decide
  have l4 : semantic_search_sql_lit4.data.count squote = 0 := by decide
  have l5 : semantic_search_sql_lit5.data.count squote = 0 := by decide
  have hq : (replaceQuotes query).data.count squote = 2 * query.data.count squote :=
    replaceQuotes_quote_count query.data
  have hhead : (semantic_search_sql_head
      (semantic_search_full_name project kb_name)).data.count squote = 1 := by
    simp only [semantic_search_sql_head, String.data_append, List.count_append]
    rw [l1, hname, l2]
  have htail : (semantic_search_sql_tail relevance_threshold limit).data.count squote = 1 := by
    simp only [semantic_search_sql_tail, String.data_append, List.count_append]
    rw [l3, hthr, l4, hlim, l5]
  refine ⟨rfl, hq, fun c hc => replaceQuotes_other_count c hc query.data, ?_⟩
  simp only [semantic_search_sql, String.data_append, List.count_append]
  rw [hhead, htail, hq]
  omega

/-- C4, witness at a query containing one single quote. -/
theorem C4_semantic_search_escapes_quotes_witness :
    (semantic_search_full_name none "kb").data.count squote = 0 ∧
    ("0.5" : String).data.count squote = 0 ∧
    (toString (10 : Nat)).data.count squote = 0 ∧
    ((semantic_search_sql none "kb" (String.mk [squote]) 10 "0.5").data.count squote
      = 2 + 2 * (String.mk [squote]).data.count squote) :=
  ⟨by decide, by decide, by decide,
    (C4_semantic_search_escapes_quotes none "kb" (String.mk [squote]) 10 "0.5"
      (by decide) (by decide) (by decide)).2.2.2⟩

/-- C5: when the remote call of `semantic_search` or of `query_ai_table`
succeeds, an empty result set is returned as the empty sequence without
raising, and a non-empty one is returned unchanged. -/
theorem C5_empty_result_convention
    (project : Option String) (kb_name query : String) (limit : Nat)
    (relevance_threshold : String) (remote : String → Except String (List Row))
    (rows : List Row)
    (ai_project : Option String) (ai_table_name : String) (query_filter : Option String)
    (ai_limit : Nat) (remote2 : String → Except String (List Row)) (rows2 : List Row)
    (h : remote (semantic_search_sql project kb_name query limit relevance_threshold)
        = Except.ok rows)
    (h2 : remote2 (query_ai_table_sql (query_ai_table_full_name ai_project ai_table_name)
        query_filter ai_limit) = Except.ok rows2) :
    ((rows = [] →
        (semantic_search project kb_name query limit relevance_threshold remote).2
          = Except.ok []) ∧
      (rows ≠ [] →
        (semantic_search project kb_name query limit relevance_threshold remote).2
          = Except.ok rows)) ∧
    ((rows2 = [] →
        (query_ai_table ai_project ai_table_name query_filter ai_limit remote2).2
          = Except.ok []) ∧
      (rows2 ≠ [] →
        (query_ai_table ai_project ai_table_name query_filter ai_limit remote2).2
          = Except.ok rows2)) := by
  refine ⟨⟨?_, ?_⟩, ⟨?_, ?_⟩⟩ <;> intro hr <;>
    simp [semantic_search, query_ai_table, h, h2, hr]

/-- C5, witness: an empty semantic-search result and a one-row AI-table
result. -/
theorem C5_empty_result_convention_witness :
    (semantic_search none "kb" "q" 10 "0.5" (fun _ => Except.ok [])).2 = Except.ok [] ∧
    (query_ai_table none "t" none 10 (fun _ => Except.ok [["r1"]])).2
      = Except.ok [["r1"]] :=
  ⟨(C5_empty_result_convention none "kb" "q" 10 "0.5" (fun _ => Except.ok []) []
      none "t" none 10 (fun _ => Except.ok [["r1"]]) [["r1"]] rfl rfl).1.1 rfl,
   (C5_empty_result_convention none "kb" "q" 10 "0.5" (fun _ => Except.ok []) []
      none "t" none 10 (fun _ => Except.ok [["r1"]]) [["r1"]] rfl rfl).2.2 (by decide)⟩

/-- C7: `load_csv` re-raises any read error unchanged after logging it, and
on success returns the loaded table, logging its row count. -/
theorem C7_load_csv_propagates (input_file : String)
    (readCsv : String → Except String Table) :
    (∀ e, readCsv input_file = Except.error e →
      (load_csv input_file readCsv).2 = Except.error e ∧
      LogEntry.error ("Failed to load CSV file: " ++ e)
        ∈ (load_csv input_file readCsv).1) ∧
    (∀ df, readCsv input_file = Except.ok df →
      (load_csv input_file readCsv).2 = Except.ok df ∧
      (load_csv input_file readCsv).1
        = [LogEntry.info ("Loaded " ++ toString df.nrows ++ " rows from \x27"
            ++ input_file ++ "\x27.")]) := by
  constructor
  · intro e h; simp [load_csv, h]
  · intro df h; simp [load_csv, h]

/-- C7, witness: a failing read propagates its error; a successful read of a
3-row table returns it and logs the count. -/
theorem C7_load_csv_propagates_witness :
    ((load_csv "data.csv" (fun _ => Except.error "parse failure")).2
        = Except.error "parse failure" ∧
      LogEntry.error ("Failed to load CSV file: " ++ "parse failure")
        ∈ (load_csv "data.csv" (fun _ => Except.error "parse failure")).1) ∧
    ((load_csv "data.csv" (fun _ => Except.ok (Table.mk ["id", "content"] 3))).2
        = Except.ok (Table.mk ["id", "content"] 3) ∧
      (load_csv "data.csv" (fun _ => Except.ok (Table.mk ["id", "content"] 3))).1
        = [LogEntry.info ("Loaded " ++ toString (Table.mk ["id", "content"] 3).nrows
            ++ " rows from \x27" ++ "data.csv" ++ "\x27.")]) :=
  ⟨(C7_load_csv_propagates "data.csv" _).1 "parse failure" rfl,
   (C7_load_csv_propagates "data.csv" _).2 (Table.mk ["id", "content"] 3) rfl⟩

/-- C8, counterexample: with the empty project string supplied at
construction (`--project ""`), the qualified name is the bare name, not
`"" ++ "." ++ name`: Python truthiness of `self.project` leaves the name
unqualified, so the claim as stated fails for a supplied empty project. -/
theorem C8_qualification_counterexample :
    create_knowledge_base_full_name (some "") "kb" = "kb" ∧
    create_knowledge_base_full_name (some "") "kb" ≠ "" ++ "." ++ "kb" := by
  decide

/-- C8, amended: every operation qualifies its object name by the same
rule: `"<project>.<name>"` when a non-empty project was supplied at
construction, and the bare `"<name>"` otherwise (no project, or the falsy
empty project string). -/
theorem C8_qualification_uniform (project : Option String) (name : String) :
    create_knowledge_base_full_name project name = qualified_name_rule project name ∧
    insert_data_with_job_full_name project name = qualified_name_rule project name ∧
    create_index_with_job_full_name project name = qualified_name_rule project name ∧
    semantic_search_full_name project name = qualified_name_rule project name ∧
    create_ai_table_full_name project name = qualified_name_rule project name ∧
    query_ai_table_full_name project name = qualified_name_rule project name ∧
    (∀ p, p ≠ "" → qualified_name_rule (some p) name = p ++ "." ++ name) ∧
    qualified_name_rule none name = name := by
  have key : create_knowledge_base_full_name project name = qualified_name_rule project name := by
    cases project with
    | none => rfl
    | some p =>
        by_cases hp : p = "" <;>
          simp [create_knowledge_base_full_name, qualified_name_rule, hp]
  exact ⟨key, key, key, key, key, key,
    fun p hp => by simp [qualified_name_rule, hp], rfl⟩

/-- C8 amended, witness at project `"proj"` and name `"kb"`. -/
theorem C8_qualification_uniform_witness :
    create_knowledge_base_full_name (some "proj") "kb"
      = qualified_name_rule (some "proj") "kb" ∧
    insert_data_with_job_full_name (some "proj") "kb"
      = qualified_name_rule (some "proj") "kb" ∧
    create_index_with_job_full_name (some "proj") "kb"
      = qualified_name_rule (some "proj") "kb" ∧
    semantic_search_full_name (some "proj") "kb"
      = qualified_name_rule (some "proj") "kb" ∧
    create_ai_table_full_name (some "proj") "kb"
      = qualified_name_rule (some "proj") "kb" ∧
    query_ai_table_full_name (some "proj") "kb"
      = qualified_name_rule (some "proj") "kb" ∧
    qualified_name_rule (some "proj") "kb" = "proj" ++ "." ++ "kb" ∧
    qualified_name_rule none "kb" = "kb" :=
  ⟨(C8_qualification_uniform (some "proj") "kb").1,
   (C8_qualification_uniform (some "proj") "kb").2.1,
   (C8_qualification_uniform (some "proj") "kb").2.2.1,
   (C8_qualification_uniform (some "proj") "kb").2.2.2.1,
   (C8_qualification_uniform (some "proj") "kb").2.2.2.2.1,
   (C8_qualification_uniform (some "proj") "kb").2.2.2.2.2.1,
   (C8_qualification_uniform (some "proj") "kb").2.2.2.2.2.2.1 "proj" (by decide),
   (C8_qualification_uniform none "kb").2.2.2.2.2.2.2⟩

/-- C9: `create_knowledge_base` resolves an absent (`None`) metadata-column
argument to `[]`, an absent content-column argument to `["content"]`, its
`id_column` parameter defaults to `"id"`, and calling it with both column
arguments absent and the default id column behaves exactly like calling it
with `[]`, `["content"]` and `"id"` explicitly. -/
theorem C9_create_kb_defaults :
    resolve_metadata_columns none = [] ∧
    resolve_content_columns none = ["content"] ∧
    create_knowledge_base_default_id_column = "id" ∧
    (∀ project kb_name engine_name (remote : String → Except String Unit),
      create_knowledge_base project kb_name engine_name none none
          create_knowledge_base_default_id_column remote
        = create_knowledge_base project kb_name engine_name (some []) (some ["content"])
            "id" remote) :=
  ⟨rfl, rfl, rfl, fun _ _ _ _ => rfl⟩

/-- A call traced by a sequenced phase comes from one of the two phases. -/
theorem mem_seqStep (c : Call) (a : Step) (b : Unit → Step)
    (h : c ∈ (seqStep a b).1) : c ∈ a.1 ∨ c ∈ (b ()).1 := by
  rcases a with ⟨cs, ls, r⟩
  cases r with
  | ok u =>
      cases u
      simp only [seqStep] at h
      exact List.mem_append.mp h
  | error e =>
      exact Or.inl h

/-- When the first phase succeeds, sequencing appends traces and logs and
keeps the second phase's outcome. -/
theorem seqStep_ok (a : Step) (b : Unit → Step) (h : a.2.2 = Except.ok ()) :
    seqStep a b = (a.1 ++ (b ()).1, a.2.1 ++ (b ()).2.1, (b ()).2.2) := by
  rcases a with ⟨cs, ls, r⟩
  cases r with
  | ok u => cases u; rfl
  | error e => exact absurd h (by simp)

/-- Every call of the engine phase is an engine-creation call carrying
`main`'s fixed engine name. -/
theorem mainEngineStep_calls (args : Args) (env : Env) :
    ∀ c ∈ (mainEngineStep args env).1, ∃ key, c = Call.createEngine main_engine_name key := by
  intro c hc
  rcases hk : args.gemini_api_key with _ | key
  · simp [mainEngineStep, hk, okStep] at hc
  · by_cases hke : key = ""
    · simp [mainEngineStep, hk, hke, okStep] at hc
    · simp [mainEngineStep, hk, hke, callStep] at hc
      exact ⟨key, hc⟩

/-- Every call of the knowledge-base phase is a knowledge-base creation
(with `main`'s fixed engine name), an insert job or an index job. -/
theorem mainKbStep_calls (args : Args) (env : Env) :
    ∀ c ∈ (mainKbStep args env).1,
      (∃ full m cc idc, c = Call.createKB full main_engine_name m cc idc) ∨
      (∃ full n, c = Call.insertJob full n) ∨
      (∃ full, c = Call.indexJob full) := by
  intro c hc
  rcases hk : args.kb_name with _ | kbn
  · simp [mainKbStep, hk, okStep] at hc
  rcases hf : args.input_file with _ | infile
  · simp [mainKbStep, hk, hf, okStep] at hc
  by_cases hcond : kbn = "" ∨ infile = ""
  · simp [mainKbStep, hk, hf, hcond, okStep] at hc
  rcases hlc : (load_csv infile env.readCsv).2 with e | df
  · simp [mainKbStep, hk, hf, hcond, hlc] at hc
  simp only [mainKbStep, hk, hf, hcond, hlc, if_neg, List.nil_append] at hc
  rcases mem_seqStep _ _ _ hc with h | hc2
  · simp [callStep] at h
    exact Or.inl ⟨_, _, _, _, h⟩
  rcases mem_seqStep _ _ _ hc2 with h | h
  · simp [callStep] at h
    exact Or.inr (Or.inl ⟨_, _, h⟩)
  · simp [callStep] at h
    exact Or.inr (Or.inr ⟨_, h⟩)

/-- Every call of the search phase is a search call. -/
theorem mainSearchStep_calls (args : Args) (env : Env) :
    ∀ c ∈ (mainSearchStep args env).1, ∃ full q, c = Call.search full q := by
  intro c hc
  rcases hk : args.kb_name with _ | kbn
  · simp [mainSearchStep, hk, okStep] at hc
  rcases hq : args.query with _ | q
  · simp [mainSearchStep, hk, hq, okStep] at hc
  by_cases hcond : kbn = "" ∨ q = ""
  · simp [mainSearchStep, hk, hq, hcond, okStep] at hc
  · simp [mainSearchStep, hk, hq, hcond] at hc
    exact ⟨_, _, hc⟩

/-- Every call of the AI-table query phase is an AI-table query call. -/
theorem mainQueryAiStep_calls (args : Args) (env : Env) :
    ∀ c ∈ (mainQueryAiStep args env).1, ∃ full qf, c = Call.queryAITable full qf := by
  intro c hc
  rcases hn : args.ai_table_name with _ | n
  · simp [mainQueryAiStep, hn, okStep] at hc
  · by_cases hq : (args.query_ai_table && (n != "")) = true
    · simp [mainQueryAiStep, hn, hq] at hc
      exact ⟨_, _, hc⟩
    · simp [mainQueryAiStep, hn, hq, okStep] at hc

/-- Every call of the AI-table phase is an AI-table creation or an AI-table
query. -/
theorem mainAiStep_calls (args : Args) (env : Env) :
    ∀ c ∈ (mainAiStep args env).1,
      (∃ full s t ic oc, c = Call.createAITable full s t ic oc) ∨
      (∃ full qf, c = Call.queryAITable full qf) := by
  intro c hc
  by_cases hflag : args.create_ai_table = true
  · by_cases hp : aiRequiredFieldsPresent args = true
    · rcases hn : args.ai_table_name with _ | n <;>
      rcases hs : args.source_table with _ | s <;>
      rcases ht : args.task_type with _ | t <;>
      rcases hic : args.input_columns with _ | ic <;>
      rcases hoc : args.output_column with _ | oc <;>
        simp only [mainAiStep, hflag, hp, hn, hs, ht, hic, hoc, if_true,
          List.not_mem_nil] at hc
      rcases mem_seqStep _ _ _ hc with h | h
      · simp [callStep] at h
        exact Or.inl ⟨_, _, _, _, _, h⟩
      · exact Or.inr (mainQueryAiStep_calls args env c h)
    · simp [mainAiStep, hflag, hp] at hc
  · have heq : mainAiStep args env = mainQueryAiStep args env := by
      simp [mainAiStep, hflag]
    rw [heq] at hc
    exact Or.inr (mainQueryAiStep_calls args env c hc)

/-- When the AI-table creation flag is set and a required field is missing,
the AI-table phase issues nothing, logs the error, and returns normally. -/
theorem mainAiStep_missing (args : Args) (env : Env)
    (hflag : args.create_ai_table = true)
    (hm : aiRequiredFieldsPresent args = false) :
    mainAiStep args env = ([], [ai_table_missing_log], Except.ok ()) := by
  simp [mainAiStep, hflag, hm]

/-- The engine phase succeeds when every remote call succeeds. -/
theorem mainEngineStep_ok (args : Args) (env : Env)
    (henv : ∀ c, env.respond c = Except.ok []) :
    (mainEngineStep args env).2.2 = Except.ok () := by
  rcases hk : args.gemini_api_key with _ | key
  · simp [mainEngineStep, hk, okStep]
  · by_cases hke : key = "" <;>
      simp [mainEngineStep, hk, hke, okStep, callStep, create_gemini_engine,
        Env.respondUnit, henv, Except.map]

/-- The knowledge-base phase succeeds when every remote call and every CSV
read succeeds. -/
theorem mainKbStep_ok (args : Args) (env : Env)
    (henv : ∀ c, env.respond c = Except.ok [])
    (hcsv : ∀ f, ∃ df, env.readCsv f = Except.ok df) :
    (mainKbStep args env).2.2 = Except.ok () := by
  rcases hk : args.kb_name with _ | kbn
  · simp [mainKbStep, hk, okStep]
  rcases hf : args.input_file with _ | infile
  · simp [mainKbStep, hk, hf, okStep]
  by_cases hcond : kbn = "" ∨ infile = ""
  · simp [mainKbStep, hk, hf, hcond, okStep]
  obtain ⟨df, hdf⟩ := hcsv infile
  have hlc : (load_csv infile env.readCsv).2 = Except.ok df := by simp [load_csv, hdf]
  simp [mainKbStep, hk, hf, hcond, hlc, seqStep, callStep, create_knowledge_base,
    insert_data_with_job, create_index_with_job, Env.respondUnit, henv, Except.map]

/-- The search phase succeeds when every remote call succeeds. -/
theorem mainSearchStep_ok (args : Args) (env : Env)
    (henv : ∀ c, env.respond c = Except.ok []) :
    (mainSearchStep args env).2.2 = Except.ok () := by
  rcases hk : args.kb_name with _ | kbn
  · simp [mainSearchStep, hk, okStep]
  rcases hq : args.query with _ | q
  · simp [mainSearchStep, hk, hq, okStep]
  by_cases hcond : kbn = "" ∨ q = ""
  · simp [mainSearchStep, hk, hq, hcond, okStep]
  · simp [mainSearchStep, hk, hq, hcond, semantic_search, henv, Except.map]

/-- C6: when the AI-table creation flag is set but a required field is
missing (falsy), `main` never issues an AI-table creation call — under any
remote behaviour — and, when everything else succeeds, it logs the
requirements error and returns without raising. -/
theorem C6_missing_ai_fields_aborts (args : Args) (env : Env)
    (hflag : args.create_ai_table = true)
    (hmissing : aiRequiredFieldsPresent args = false) :
    (∀ c ∈ (runMain args env).1, isCreateAITableCall c = false) ∧
    (envAllOk env →
      (runMain args env).2.2 = Except.ok () ∧
      ai_table_missing_log ∈ (runMain args env).2.1) := by
  constructor
  · intro c hc
    unfold runMain at hc
    rcases mem_seqStep _ _ _ hc with h | h
    · obtain ⟨key, rfl⟩ := mainEngineStep_calls args env c h
      rfl
    rcases mem_seqStep _ _ _ h with h2 | h2
    · rcases mainKbStep_calls args env c h2 with ⟨_, _, _, _, rfl⟩ | ⟨_, _, rfl⟩ | ⟨_, rfl⟩ <;>
        rfl
    rcases mem_seqStep _ _ _ h2 with h3 | h3
    · obtain ⟨full, q, rfl⟩ := mainSearchStep_calls args env c h3
      rfl
    · rw [mainAiStep_missing args env hflag hmissing] at h3
      simp at h3
  · rintro ⟨henv, hcsv⟩
    have e1 := mainEngineStep_ok args env henv
    have e2 := mainKbStep_ok args env henv hcsv
    have e3 := mainSearchStep_ok args env henv
    have e4 := mainAiStep_missing args env hflag hmissing
    unfold runMain
    rw [seqStep_ok _ _ e1]
    rw [seqStep_ok _ _ e2]
    rw [seqStep_ok _ _ e3]
    rw [e4]
    simp

/-- C6, witness: the creation flag set with `--output_column` (and all other
AI-table fields) absent, in an all-successful environment. -/
theorem C6_missing_ai_fields_aborts_witness :
    ((runMain
        (Args.mk "k" none none none none none 10 "0.5" true none none none none none false none)
        (Env.mk (fun _ => Except.ok []) (fun _ => Except.ok (Table.mk ["id"] 0)))).2.2
      = Except.ok ()) ∧
    (ai_table_missing_log
      ∈ (runMain
          (Args.mk "k" none none none none none 10 "0.5" true none none none none none false none)
          (Env.mk (fun _ => Except.ok []) (fun _ => Except.ok (Table.mk ["id"] 0)))).2.1) ∧
    (∀ c ∈ (runMain
        (Args.mk "k" none none none none none 10 "0.5" true none none none none none false none)
        (Env.mk (fun _ => Except.ok []) (fun _ => Except.ok (Table.mk ["id"] 0)))).1,
      isCreateAITableCall c = false) := by
  have h := C6_missing_ai_fields_aborts
    (Args.mk "k" none none none none none 10 "0.5" true none none none none none false none)
    (Env.mk (fun _ => Except.ok []) (fun _ => Except.ok (Table.mk ["id"] 0)))
    rfl rfl
  have h2 := h.2 ⟨fun _ => rfl, fun _ => ⟨Table.mk ["id"] 0, rfl⟩⟩
  exact ⟨h2.1, h2.2, h.1⟩

/-- C10: the ML engine name is the fixed constant `"google_gemini_engine"`:
whatever the command-line arguments and the remote behaviour, every
engine-provisioning call and every knowledge-base creation call `main`
issues carries exactly that name. -/
theorem C10_engine_name_constant (args : Args) (env : Env) :
    main_engine_name = "google_gemini_engine" ∧
    ∀ c ∈ (runMain args env).1, usesMainEngineName c = true := by
  refine ⟨rfl, ?_⟩
  intro c hc
  unfold runMain at hc
  rcases mem_seqStep _ _ _ hc with h | h
  · obtain ⟨key, rfl⟩ := mainEngineStep_calls args env c h
    simp [usesMainEngineName]
  rcases mem_seqStep _ _ _ h with h2 | h2
  · rcases mainKbStep_calls args env c h2 with ⟨_, _, _, _, rfl⟩ | ⟨_, _, rfl⟩ | ⟨_, rfl⟩ <;>
      simp [usesMainEngineName]
  rcases mem_seqStep _ _ _ h2 with h3 | h3
  · obtain ⟨full, q, rfl⟩ := mainSearchStep_calls args env c h3
    rfl
  · rcases mainAiStep_calls args env c h3 with ⟨_, _, _, _, _, rfl⟩ | ⟨_, _, rfl⟩ <;> rfl

/-- C10, witness: an invocation that provisions the engine issues the
engine-creation call with the fixed name. -/
theorem C10_engine_name_constant_witness :
    Call.createEngine "google_gemini_engine" "gk"
      ∈ (runMain
          (Args.mk "k" none none (some "gk") none none 10 "0.5" false none none none none none false none)
          (Env.mk (fun _ => Except.ok []) (fun _ => Except.ok (Table.mk ["id"] 0)))).1 ∧
    usesMainEngineName (Call.createEngine "google_gemini_engine" "gk") = true := by
  refine ⟨by decide, ?_⟩
  exact (C10_engine_name_constant
    (Args.mk "k" none none (some "gk") none none 10 "0.5" false none none none none none false none)
    (Env.mk (fun _ => Except.ok []) (fun _ => Except.ok (Table.mk ["id"] 0)))).2
    (Call.createEngine "google_gemini_engine" "gk") (by decide)

end KBCli
